import Mathlib

/-!
Shallow embedding of the GAuss Google-OAuth2 package (Go) and proofs about
its authorization-flow state machine and redirect-URI resolution.

Sources embedded:
* `pkg/gauss/scopes.go` — scope constants, `Handlers.Login`, `Handlers.Callback`,
  `Handlers.Logout`;
* the service file — `Service`, `NewService`, `WithLogoutRedirectURL`,
  `authorizationConfigForRequest`, `redirectURLForRequest`, `effectiveBaseURL`,
  `resolveScheme`, `resolveHost`, `resolvePort`, `firstHeaderValue`,
  `extractForwardedDirective`.

Go strings are modelled as Lean `String`; the Go standard-library string
helpers used by the source (`strings.Split`, `strings.TrimSpace`,
`strings.ToLower`, `strings.HasPrefix`, `strings.Trim`, `strings.Contains`)
are re-implemented below as structurally recursive functions on `List Char`
so that every definition evaluates inside the kernel.
-/

namespace GAuss

/-- Go `strings.Split s (String.singleton c)`: split on every occurrence of
the character `c`; the empty string yields `[""]`, like Go. -/
def splitCharAux (c : Char) : List Char → List Char → List (List Char)
  | [], acc => [acc.reverse]
  | x :: xs, acc =>
    if x = c then acc.reverse :: splitCharAux c xs []
    else splitCharAux c xs (x :: acc)

/-- Split a string on a separator character, Go `strings.Split` style. -/
def splitChar (s : String) (c : Char) : List String :=
  (splitCharAux c s.toList []).map String.mk

/-- Go `strings.TrimSpace`: drop leading and trailing whitespace. -/
def trimSpace (s : String) : String :=
  String.mk (((s.toList.dropWhile Char.isWhitespace).reverse.dropWhile
    Char.isWhitespace).reverse)

/-- Go `strings.ToLower` restricted to ASCII case mapping, which is all the
source ever feeds it (header scheme tokens). -/
def lowerStr (s : String) : String :=
  String.mk (s.toList.map Char.toLower)

/-- Go `strings.Trim value "\""`: drop all leading and trailing `"` chars. -/
def trimQuotes (s : String) : String :=
  String.mk (((s.toList.dropWhile (· = '"')).reverse.dropWhile
    (· = '"')).reverse)

/-- Go `strings.HasPrefix` on character lists. -/
def isPfxOf : List Char → List Char → Bool
  | [], _ => true
  | _ :: _, [] => false
  | a :: as, b :: bs => a = b && isPfxOf as bs

/-- Go `strings.HasPrefix s pfx`. -/
def hasPfx (s pfx : String) : Bool :=
  isPfxOf pfx.toList s.toList

/-- Go `strings.Contains s (String.singleton c)`. -/
def containsChar (s : String) (c : Char) : Bool :=
  s.toList.contains c

/-- Go `s[n:]` for an `n`-character ASCII slice point: drop `n` characters. -/
def dropChars (s : String) (n : Nat) : String :=
  String.mk (s.toList.drop n)

/-- Character count of a string (used as the slice point for the ASCII
directive names `proto=` / `host=`). -/
def strLen (s : String) : Nat :=
  s.toList.length

/-- `firstHeaderValue` (service file): first non-empty trimmed comma-separated
token of a header value, or `""`. -/
def firstSegValue : List String → String
  | [] => ""
  | seg :: rest =>
    let trimmed := trimSpace seg
    if trimmed ≠ "" then trimmed else firstSegValue rest

/-- Go `firstHeaderValue` from the service file. -/
def firstHeaderValue (headerValue : String) : String :=
  if headerValue = "" then ""
  else firstSegValue (splitChar headerValue ',')

/-- One pair of a `Forwarded` directive group: if the trimmed pair carries the
(case-insensitive) directive name `pfx`, its trimmed, quote-stripped value;
otherwise `""`.  Mirrors the inner loop body of `extractForwardedDirective`. -/
def forwardedPairValue (pfx trimmedPair : String) : String :=
  if trimmedPair = "" then ""
  else if hasPfx (lowerStr trimmedPair) pfx then
    trimQuotes (trimSpace (dropChars trimmedPair (strLen pfx)))
  else ""

/-- Inner loop of `extractForwardedDirective`: first non-empty directive value
among the semicolon-separated pairs of one directive group. -/
def extractFromPairs (pfx : String) : List String → String
  | [] => ""
  | pair :: rest =>
    let v := forwardedPairValue pfx (trimSpace pair)
    if v ≠ "" then v else extractFromPairs pfx rest

/-- Outer loop of `extractForwardedDirective`: scan comma-separated directive
groups, skipping empty groups and groups without a non-empty value. -/
def extractFromDirectives (pfx : String) : List String → String
  | [] => ""
  | d :: rest =>
    let trimmedDirective := trimSpace d
    if trimmedDirective = "" then extractFromDirectives pfx rest
    else
      let v := extractFromPairs pfx (splitChar trimmedDirective ';')
      if v ≠ "" then v else extractFromDirectives pfx rest

/-- Go `extractForwardedDirective` from the service file. -/
def extractForwardedDirective (headerValue pfx : String) : String :=
  if headerValue = "" then ""
  else extractFromDirectives pfx (splitChar headerValue ',')

/-- `url.URL` restricted to the fields the source reads and writes
(scheme, host, path). -/
structure URL where
  scheme : String
  host : String
  path : String
deriving Repr, DecidableEq

/-- Go `url.URL.ResolveReference` for the references the source builds: the
callback path reference is always a rootless-scheme, absolute-path URL, so the
base keeps scheme and host and takes the reference's path. -/
def URL.resolveReference (base ref : URL) : URL :=
  if ref.scheme ≠ "" then ref
  else if ref.host ≠ "" then { ref with scheme := base.scheme }
  else { base with path := ref.path }

/-- Go `url.URL.String` for scheme://host/path URLs. -/
def URL.toStr (u : URL) : String :=
  u.scheme ++ "://" ++ u.host ++ u.path

/-- `oauth2.Config` restricted to the fields the source reads and writes.
`endpoint` stands for the provider endpoint pair, opaque to the source. -/
structure OAuthConfig where
  redirectURL : String
  clientID : String
  clientSecret : String
  scopes : List String
  endpoint : String
deriving Repr, DecidableEq

/-- `Service` from the service file.  `publicBaseURL` is an `Option` because
the Go field is a pointer the resolution helpers guard against being nil. -/
structure Service where
  config : OAuthConfig
  publicBaseURL : Option URL
  callbackPath : Option URL
  localRedirectURL : String
  logoutRedirectURL : String
  loginTemplate : String
deriving Repr, DecidableEq

/-- The parts of `http.Request` the embedded source reads.  Each `h...` field
is `request.Header.Get` of the named header (`""` when absent); `urlScheme`
collapses Go's `request.URL == nil` and `request.URL.Scheme == ""` cases. -/
structure Request where
  hForwarded : String
  hXForwardedProto : String
  hXForwardedScheme : String
  hXForwardedHost : String
  hXForwardedPort : String
  tls : Bool
  urlScheme : String
  host : String
  queryState : String
  queryCode : String
deriving Repr, DecidableEq

/-- `forwardedProtoPrefix` constant of the service file. -/
def forwardedProtoDirective : String := "proto="

/-- `forwardedHostPrefix` constant of the service file. -/
def forwardedHostDirective : String := "host="

/-- `defaultHTTPScheme` constant of the service file. -/
def defaultHTTPScheme : String := "https"

/-- Go `Service.resolveScheme`. -/
def Service.resolveScheme (svc : Service) (req : Request) : String :=
  let fwd := extractForwardedDirective req.hForwarded forwardedProtoDirective
  if fwd ≠ "" then lowerStr fwd
  else
    let proto := firstHeaderValue req.hXForwardedProto
    if proto ≠ "" then lowerStr proto
    else
      let sch := firstHeaderValue req.hXForwardedScheme
      if sch ≠ "" then lowerStr sch
      else if req.tls then defaultHTTPScheme
      else if req.urlScheme ≠ "" then lowerStr req.urlScheme
      else
        match svc.publicBaseURL with
        | some baseURL =>
          if baseURL.scheme ≠ "" then lowerStr baseURL.scheme
          else defaultHTTPScheme
        | none => defaultHTTPScheme

/-- Go `Service.resolveHost`. -/
def Service.resolveHost (svc : Service) (req : Request) : String :=
  let fwd := extractForwardedDirective req.hForwarded forwardedHostDirective
  if fwd ≠ "" then fwd
  else
    let xfh := firstHeaderValue req.hXForwardedHost
    if xfh ≠ "" then xfh
    else if req.host ≠ "" then req.host
    else
      match svc.publicBaseURL with
      | some baseURL => baseURL.host
      | none => ""

/-- Go `Service.resolvePort` (the receiver is unused in the source too). -/
def Service.resolvePort (_ : Service) (req : Request) : String :=
  firstHeaderValue req.hXForwardedPort

/-- Go `Service.effectiveBaseURL`; `none` for the request models Go's nil
request pointer. -/
def Service.effectiveBaseURL (svc : Service) (req : Option Request) : Option URL :=
  match svc.publicBaseURL with
  | none => none
  | some base =>
    match req with
    | none => some base
    | some r =>
      let scheme := svc.resolveScheme r
      let host := svc.resolveHost r
      if host = "" then some base
      else
        let port := svc.resolvePort r
        let host' :=
          if port ≠ "" && !(containsChar host ':') then host ++ ":" ++ port
          else host
        some { base with scheme := scheme, host := host' }

/-- Go `Service.redirectURLForRequest`. -/
def Service.redirectURLForRequest (svc : Service) (req : Option Request) : String :=
  match svc.callbackPath with
  | none => svc.config.redirectURL
  | some cb =>
    match svc.effectiveBaseURL req with
    | none => svc.config.redirectURL
    | some base => (URL.resolveReference base cb).toStr

/-- Go `Service.authorizationConfigForRequest`: value copy of the shared
config with only the redirect URL overridden. -/
def Service.authorizationConfigForRequest (svc : Service) (req : Option Request) :
    OAuthConfig :=
  { svc.config with redirectURL := svc.redirectURLForRequest req }

/-- State-passing form of `authorizationConfigForRequest`.  The Go method
performs no write through the service receiver (it copies `*config` by value
before assigning), so the service component of the result is the input
service. -/
def Service.authorizationConfigForRequestS (svc : Service) (req : Option Request) :
    OAuthConfig × Service :=
  (svc.authorizationConfigForRequest req, svc)

/-- Modelled from the spec: the `pkg/constants` package is not under `src/`;
the spec's route table fixes the login path at `/login`. -/
def LoginPath : String := "/login"

/-- Modelled from the spec: callback route `/auth/google/callback`. -/
def CallbackPathValue : String := "/auth/google/callback"

/-- Modelled from the spec: reserved session key for the authenticated user
email (the exact constant string is not under `src/`; only its distinctness
from the other reserved keys matters here). -/
def SessionKeyUserEmail : String := "user_email"

/-- Modelled from the spec: reserved session key for the user display name. -/
def SessionKeyUserName : String := "user_name"

/-- Modelled from the spec: reserved session key for the user avatar URL. -/
def SessionKeyUserPicture : String := "user_picture"

/-- Modelled from the spec: reserved session key for the serialized OAuth
token JSON. -/
def SessionKeyOAuthToken : String := "oauth_token"

/-- `ScopeProfile` constant of `pkg/gauss/scopes.go` (as its string value;
Go's `Scope` is a string newtype). -/
def ScopeProfile : String := "profile"

/-- `ScopeEmail` constant of `pkg/gauss/scopes.go`. -/
def ScopeEmail : String := "email"

/-- `DefaultScopes` of `pkg/gauss/scopes.go`, already through `ScopeStrings`. -/
def DefaultScopes : List String := [ScopeProfile, ScopeEmail]

/-- `ServiceOption` from the service file. -/
def ServiceOption : Type := Service → Service

/-- Go `WithLogoutRedirectURL`: ignore values that trim to empty, otherwise
overwrite the logout redirect destination stored on the service. -/
def WithLogoutRedirectURL (redirectURL : String) : ServiceOption :=
  fun serviceInstance =>
    let trimmedRedirect := trimSpace redirectURL
    if trimmedRedirect = "" then serviceInstance
    else { serviceInstance with logoutRedirectURL := trimmedRedirect }

/-- Go `NewService`.  `googleOAuthBase` is the already-parsed base URL;
`none` models a `url.Parse` failure (the only construction-time URL error). -/
def NewService (clientID clientSecret : String) (googleOAuthBase : Option URL)
    (localRedirectURL : String) (scopes : List String)
    (customLoginTemplate : String) (options : List ServiceOption) :
    Option Service :=
  if clientID = "" ∨ clientSecret = "" then none
  else
    match googleOAuthBase with
    | none => none
    | some baseURL =>
      let relativePath : URL := { scheme := "", host := "", path := CallbackPathValue }
      let redirectURL := URL.resolveReference baseURL relativePath
      let scopes' := if scopes = [] then DefaultScopes else scopes
      let baseConfig : OAuthConfig :=
        { redirectURL := redirectURL.toStr
          clientID := clientID
          clientSecret := clientSecret
          scopes := scopes'
          endpoint := "google" }
      let serviceInstance : Service :=
        { config := baseConfig
          publicBaseURL := some baseURL
          callbackPath := some relativePath
          localRedirectURL := localRedirectURL
          logoutRedirectURL := LoginPath
          loginTemplate := customLoginTemplate }
      some (options.foldl (fun svc opt => opt svc) serviceInstance)

/-- Session values: the handlers only ever store strings under string keys;
`gorilla` session `Values` is modelled as an association list where the most
recent write shadows older entries. -/
abbrev SessionValues : Type := List (String × String)

/-- Map lookup in session values (first, i.e. most recent, binding wins). -/
def getValue : SessionValues → String → Option String
  | [], _ => none
  | (k, v) :: rest, key => if k = key then some v else getValue rest key

/-- Map assignment in session values. -/
def setValue (vals : SessionValues) (k v : String) : SessionValues :=
  (k, v) :: vals

/-- The persisted (cookie-side) session: its values and the max-age option
last written with them.  `Handlers.Logout` forces `maxAge := -1`. -/
structure SessionState where
  values : SessionValues
  maxAge : Int
deriving DecidableEq

/-- Modelled from the spec: the AuthSession store contract (`gorilla`
`CookieStore.Get`, an external collaborator).  An absent cookie yields a
fresh session and no error; a corrupt or signature-failing cookie yields a
fresh session together with the decode error; a valid cookie yields its
decoded values.  The handlers receive the pair and discard the error. -/
inductive CookieDecode where
  | absent : CookieDecode
  | corrupt (e : String) : CookieDecode
  | valid (vals : SessionValues) : CookieDecode

/-- Result of `store.Get(request, sessionName)`: session values plus the
discarded error component. -/
def storeGet : CookieDecode → SessionValues × Option String
  | .absent => ([], none)
  | .corrupt e => ([], some e)
  | .valid vals => (vals, none)

/-- `oauth2.Token` restricted to the fields the source reads (plus the fields
that round-trip through `json.Marshal`). -/
structure Token where
  accessToken : String
  tokenType : String
  refreshToken : String
  expiry : String
deriving Repr, DecidableEq

/-- Go `json.Marshal` of an `oauth2.Token`: on this plain struct type
marshalling cannot fail, so it is a total function to the JSON text. -/
def tokenJSON (t : Token) : String :=
  "\x7b\"access_token\":\"" ++ t.accessToken ++ "\",\"token_type\":\"" ++
    t.tokenType ++ "\",\"refresh_token\":\"" ++ t.refreshToken ++
    "\",\"expiry\":\"" ++ t.expiry ++ "\"\x7d"

/-- `GoogleUser` from the service file. -/
structure GoogleUser where
  email : String
  name : String
  picture : String
deriving Repr, DecidableEq

/-- The responses the embedded handlers produce: `http.Redirect` with a
location and status, or `http.Error` with a body and status. -/
inductive HttpResponse where
  | redirect (location : String) (status : Nat) : HttpResponse
  | serverError (body : String) (status : Nat) : HttpResponse
deriving DecidableEq

/-- What one handler invocation leaves behind: the HTTP response and the
persisted session after the invocation (unchanged unless a `Save` succeeded;
`gorilla` `CookieStore.Save` writes no cookie when encoding fails). -/
structure HandlerOutcome where
  response : HttpResponse
  persisted : SessionState
deriving DecidableEq

/-- Default cookie max-age the store stamps on a successful non-logout save
(`gorilla` default; the exact number is irrelevant to every claim, only that
logout forces it negative). -/
def defaultMaxAge : Int := 86400 * 30

/-- `oauth2.Config.AuthCodeURL(state, AccessTypeOffline, prompt=consent)`:
the provider authorization URL built from the per-request config. -/
def authCodeURL (cfg : OAuthConfig) (stateValue : String) : String :=
  cfg.endpoint ++ "?client_id=" ++ cfg.clientID ++ "&redirect_uri=" ++
    cfg.redirectURL ++ "&state=" ++ stateValue ++
    "&access_type=offline&prompt=consent"

/-- Environment of effects for one `Handlers.Login` invocation:
`genState` is the `GenerateState` outcome (`none` = entropy failure) and
`saveErr` the session-save outcome (`none` = success). -/
structure LoginEnv where
  genState : Option String
  saveErr : Option String

/-- Go `Handlers.Login`.  `load` is the (values, error) pair from
`store.Get`; the source discards the error (`webSession, _ :=`), which the
body mirrors by reading only `load.1`.  `pre` is the persisted session before
the invocation. -/
def Handlers.Login (svc : Service) (req : Request)
    (load : SessionValues × Option String) (env : LoginEnv)
    (pre : SessionState) : HandlerOutcome :=
  match env.genState with
  | none =>
    { response := .serverError "Internal Server Error" 500, persisted := pre }
  | some stateValue =>
    let webValues := setValue load.1 "oauth_state" stateValue
    match env.saveErr with
    | some _ =>
      { response := .serverError "Internal Server Error" 500, persisted := pre }
    | none =>
      let oauthConfig := svc.authorizationConfigForRequest (some req)
      { response := .redirect (authCodeURL oauthConfig stateValue) 302
        persisted := { values := webValues, maxAge := defaultMaxAge } }

/-- Environment of effects for one `Handlers.Callback` invocation:
the token-exchange outcome, the userinfo-fetch outcome, the session-save
outcome, and the environment a re-invoked `Login` would run under. -/
structure CallbackEnv where
  exchange : Option Token
  userInfo : Option GoogleUser
  saveErr : Option String
  login : LoginEnv

/-- Tail of `Handlers.Callback` after the profile-or-sentinel branch: always
serialize and store the OAuth token, then save and redirect. -/
def callbackFinish (svc : Service) (oauthToken : Token) (vals : SessionValues)
    (saveErr : Option String) (pre : SessionState) : HandlerOutcome :=
  let vals' := setValue vals SessionKeyOAuthToken (tokenJSON oauthToken)
  match saveErr with
  | some _ =>
    { response := .redirect (LoginPath ++ "?error=session_save_failed") 302
      persisted := pre }
  | none =>
    { response := .redirect svc.localRedirectURL 302
      persisted := { values := vals', maxAge := defaultMaxAge } }

/-- Go `Handlers.Callback`. -/
def Handlers.Callback (svc : Service) (req : Request)
    (load : SessionValues × Option String) (env : CallbackEnv)
    (pre : SessionState) : HandlerOutcome :=
  let webValues := load.1
  match getValue webValues "oauth_state" with
  | none =>
    { response := .redirect (LoginPath ++ "?error=missing_state") 302
      persisted := pre }
  | some storedStateValue =>
    if storedStateValue ≠ req.queryState then
      { response := .redirect (LoginPath ++ "?error=invalid_state") 302
        persisted := pre }
    else if req.queryCode = "" then
      { response := .redirect (LoginPath ++ "?error=missing_code") 302
        persisted := pre }
    else
      let oauthConfig := svc.authorizationConfigForRequest (some req)
      match env.exchange with
      | none =>
        { response := .redirect (LoginPath ++ "?error=token_exchange_failed") 302
          persisted := pre }
      | some oauthToken =>
        if oauthToken.refreshToken = "" then
          Handlers.Login svc req load env.login pre
        else
          let hasProfileScope :=
            oauthConfig.scopes.any fun scope =>
              scope = ScopeProfile || scope = ScopeEmail
          if hasProfileScope then
            match env.userInfo with
            | none =>
              { response := .redirect (LoginPath ++ "?error=user_info_failed") 302
                persisted := pre }
            | some googleUser =>
              let vals := setValue webValues SessionKeyUserEmail googleUser.email
              let vals := setValue vals SessionKeyUserName googleUser.name
              let vals := setValue vals SessionKeyUserPicture googleUser.picture
              callbackFinish svc oauthToken vals env.saveErr pre
          else
            let vals := setValue webValues SessionKeyUserEmail
              "authenticated_api_user"
            callbackFinish svc oauthToken vals env.saveErr pre

/-- Environment of effects for one `Handlers.Logout` invocation. -/
structure LogoutEnv where
  saveErr : Option String

/-- Go `Handlers.Logout`: force `MaxAge := -1`, save, and on success redirect
to the (hard-coded) login path; on save failure write the raw error message
with status 500.  The service receiver is never consulted in the source. -/
def Handlers.Logout (_svc : Service)
    (load : SessionValues × Option String) (env : LogoutEnv)
    (pre : SessionState) : HandlerOutcome :=
  let webValues := load.1
  match env.saveErr with
  | some msg =>
    { response := .serverError msg 500, persisted := pre }
  | none =>
    { response := .redirect LoginPath 302
      persisted := { values := webValues, maxAge := -1 } }

/-- The six machine-readable flow-error codes the callback can redirect with. -/
def flowErrorCodes : List String :=
  ["missing_state", "invalid_state", "missing_code", "token_exchange_failed",
   "user_info_failed", "session_save_failed"]

/-- The reserved identity keys plus the OAuth-token key. -/
def identityTokenKeys : List String :=
  [SessionKeyUserEmail, SessionKeyUserName, SessionKeyUserPicture,
   SessionKeyOAuthToken]

/-- Writing one key leaves every other key's lookup unchanged. -/
theorem getValue_setValue_ne (vals : SessionValues) (k v key : String)
    (h : k ≠ key) : getValue (setValue vals k v) key = getValue vals key := by
  simp [setValue, getValue, h]

/-- Writing a key makes its lookup return the written value. -/
theorem getValue_setValue_self (vals : SessionValues) (k v : String) :
    getValue (setValue vals k v) k = some v := by
  simp [setValue, getValue]

/-- A sample public base URL for concrete witnesses. -/
def sampleBase : URL := { scheme := "http", host := "localhost:8080", path := "" }

/-- A sample service (what `NewService "id" "secret" …` constructs over
`sampleBase` with the default scopes). -/
def sampleService : Service :=
  { config :=
      { redirectURL := "http://localhost:8080/auth/google/callback"
        clientID := "id"
        clientSecret := "secret"
        scopes := DefaultScopes
        endpoint := "google" }
    publicBaseURL := some sampleBase
    callbackPath := some { scheme := "", host := "", path := CallbackPathValue }
    localRedirectURL := "/dashboard"
    logoutRedirectURL := LoginPath
    loginTemplate := "" }

/-- A sample request carrying a `Forwarded: proto=https` header. -/
def sampleRequest : Request :=
  { hForwarded := "proto=https"
    hXForwardedProto := ""
    hXForwardedScheme := ""
    hXForwardedHost := ""
    hXForwardedPort := ""
    tls := false
    urlScheme := ""
    host := "loopaware.mprlab.com"
    queryState := "s123"
    queryCode := "c1" }

/-- C4: for every request, the resolved scheme follows exactly this priority
order: the `proto=` directive of the `Forwarded` header; else the first
non-empty comma-separated token of `X-Forwarded-Proto`; else the first
non-empty token of `X-Forwarded-Scheme`; else `"https"` when the request
carries TLS state; else the request URL's scheme; else the configured public
base URL's scheme; finally the hard default `"https"`. -/
theorem resolveScheme_follows_priority_order (svc : Service) (req : Request) :
    (extractForwardedDirective req.hForwarded forwardedProtoDirective ≠ "" →
      svc.resolveScheme req =
        lowerStr (extractForwardedDirective req.hForwarded forwardedProtoDirective)) ∧
    (extractForwardedDirective req.hForwarded forwardedProtoDirective = "" →
      firstHeaderValue req.hXForwardedProto ≠ "" →
      svc.resolveScheme req = lowerStr (firstHeaderValue req.hXForwardedProto)) ∧
    (extractForwardedDirective req.hForwarded forwardedProtoDirective = "" →
      firstHeaderValue req.hXForwardedProto = "" →
      firstHeaderValue req.hXForwardedScheme ≠ "" →
      svc.resolveScheme req = lowerStr (firstHeaderValue req.hXForwardedScheme)) ∧
    (extractForwardedDirective req.hForwarded forwardedProtoDirective = "" →
      firstHeaderValue req.hXForwardedProto = "" →
      firstHeaderValue req.hXForwardedScheme = "" →
      req.tls = true →
      svc.resolveScheme req = "https") ∧
    (extractForwardedDirective req.hForwarded forwardedProtoDirective = "" →
      firstHeaderValue req.hXForwardedProto = "" →
      firstHeaderValue req.hXForwardedScheme = "" →
      req.tls = false →
      req.urlScheme ≠ "" →
      svc.resolveScheme req = lowerStr req.urlScheme) ∧
    (∀ baseURL,
      extractForwardedDirective req.hForwarded forwardedProtoDirective = "" →
      firstHeaderValue req.hXForwardedProto = "" →
      firstHeaderValue req.hXForwardedScheme = "" →
      req.tls = false →
      req.urlScheme = "" →
      svc.publicBaseURL = some baseURL →
      baseURL.scheme ≠ "" →
      svc.resolveScheme req = lowerStr baseURL.scheme) ∧
    (extractForwardedDirective req.hForwarded forwardedProtoDirective = "" →
      firstHeaderValue req.hXForwardedProto = "" →
      firstHeaderValue req.hXForwardedScheme = "" →
      req.tls = false →
      req.urlScheme = "" →
      (svc.publicBaseURL = none ∨
        ∃ baseURL, svc.publicBaseURL = some baseURL ∧ baseURL.scheme = "") →
      svc.resolveScheme req = "https") := by
  unfold Service.resolveScheme
  refine ⟨?_, ?_, ?_, ?_, ?_, ?_, ?_⟩
  · intro h1
    simp [h1]
  · intro h1 h2
    simp [h1, h2]
  · intro h1 h2 h3
    simp [h1, h2, h3]
  · intro h1 h2 h3 h4
    simp [h1, h2, h3, h4, defaultHTTPScheme]
  · intro h1 h2 h3 h4 h5
    simp [h1, h2, h3, h4, h5]
  · intro baseURL h1 h2 h3 h4 h5 h6 h7
    simp [h1, h2, h3, h4, h5, h6, h7]
  · intro h1 h2 h3 h4 h5 h6
    rcases h6 with h6 | ⟨baseURL, h6, h7⟩
    · simp [h1, h2, h3, h4, h5, h6, defaultHTTPScheme]
    · simp [h1, h2, h3, h4, h5, h6, h7, defaultHTTPScheme]

/-- C4 witness: on the sample request the `Forwarded: proto=https` directive
wins and the resolved scheme is its lowered value. -/
theorem resolveScheme_priority_witness :
    sampleService.resolveScheme sampleRequest =
      lowerStr (extractForwardedDirective sampleRequest.hForwarded
        forwardedProtoDirective) :=
  (resolveScheme_follows_priority_order sampleService sampleRequest).1
    (by decide)

/-- C5: the first non-empty comma-separated token of `X-Forwarded-Port` is
appended as `":port"` to the resolved host only when the resolved host
contains no port separator already, and an absent `X-Forwarded-Port` header
adds no port at all. -/
theorem effectiveBaseURL_port_append_rules (svc : Service) (req : Request)
    (base : URL) (hbase : svc.publicBaseURL = some base)
    (hhost : svc.resolveHost req ≠ "") :
    svc.resolvePort req = firstHeaderValue req.hXForwardedPort ∧
    (∀ u, svc.effectiveBaseURL (some req) = some u →
      containsChar (svc.resolveHost req) ':' = true →
      u.host = svc.resolveHost req) ∧
    (∀ u, svc.effectiveBaseURL (some req) = some u →
      req.hXForwardedPort = "" →
      u.host = svc.resolveHost req) ∧
    (∀ u, svc.effectiveBaseURL (some req) = some u →
      svc.resolvePort req ≠ "" →
      containsChar (svc.resolveHost req) ':' = false →
      u.host = svc.resolveHost req ++ ":" ++ svc.resolvePort req) := by
  refine ⟨rfl, ?_, ?_, ?_⟩
  · intro u hu hcolon
    unfold Service.effectiveBaseURL at hu
    rw [hbase] at hu
    simp only [hhost, if_neg, hcolon] at hu
    simp only [Bool.not_true, Bool.and_false, if_neg] at hu
    cases hu
    simp [hcolon]
  · intro u hu hport
    unfold Service.effectiveBaseURL at hu
    rw [hbase] at hu
    simp only [hhost] at hu
    have hp : svc.resolvePort req = "" := by
      simp [Service.resolvePort, hport, firstHeaderValue]
    simp only [hp] at hu
    simp at hu
    cases hu
    simp [hp]
  · intro u hu hport hcolon
    unfold Service.effectiveBaseURL at hu
    rw [hbase] at hu
    simp only [hhost] at hu
    simp at hu
    cases hu
    simp [hport, hcolon]

/-- A request carrying `X-Forwarded-Proto: https` and
`X-Forwarded-Port: 8443`, as in the repository's forwarded-header test. -/
def portRequest : Request :=
  { hForwarded := ""
    hXForwardedProto := "https"
    hXForwardedScheme := ""
    hXForwardedHost := ""
    hXForwardedPort := "8443"
    tls := false
    urlScheme := ""
    host := "loopaware.mprlab.com"
    queryState := ""
    queryCode := "" }

/-- C5 witness: with `X-Forwarded-Port: 8443` on a resolved host without a
port, the effective base URL host is the resolved host with `:8443`
appended. -/
theorem effectiveBaseURL_port_witness :
    ({ scheme := "https", host := "loopaware.mprlab.com:8443", path := "" }
        : URL).host =
      sampleService.resolveHost portRequest ++ ":" ++
        sampleService.resolvePort portRequest :=
  (effectiveBaseURL_port_append_rules sampleService portRequest sampleBase
    rfl (by decide)).2.2.2
    ⟨"https", "loopaware.mprlab.com:8443", ""⟩ (by decide) (by decide)
    (by decide)

/-- C9: computing the per-request authorization configuration returns the
service unchanged, and the returned configuration equals the shared one in
every field except the redirect URL, which is the per-request resolution
result. -/
theorem authorization_config_clone_frame (svc : Service) (req : Option Request) :
    (svc.authorizationConfigForRequestS req).2 = svc ∧
    (svc.authorizationConfigForRequestS req).1.clientID = svc.config.clientID ∧
    (svc.authorizationConfigForRequestS req).1.clientSecret =
      svc.config.clientSecret ∧
    (svc.authorizationConfigForRequestS req).1.scopes = svc.config.scopes ∧
    (svc.authorizationConfigForRequestS req).1.endpoint = svc.config.endpoint ∧
    (svc.authorizationConfigForRequestS req).1.redirectURL =
      svc.redirectURLForRequest req :=
  ⟨rfl, rfl, rfl, rfl, rfl, rfl⟩

/-- The service `NewService` builds over `sampleBase` when the caller passes
`WithLogoutRedirectURL "/landing"`. -/
def landingService : Service :=
  { config :=
      { redirectURL := "http://localhost:8080/auth/google/callback"
        clientID := "id"
        clientSecret := "secret"
        scopes := DefaultScopes
        endpoint := "google" }
    publicBaseURL := some sampleBase
    callbackPath := some { scheme := "", host := "", path := CallbackPathValue }
    localRedirectURL := "/dash"
    logoutRedirectURL := "/landing"
    loginTemplate := "" }

/-- C2: the construction-time option stores `/landing` as the logout redirect
destination, yet `Logout` redirects to the hard-coded login path and never
consults the stored value (the claim's configured destination is ignored).
`Logout` does force the persisted max-age negative. -/
theorem logout_ignores_with_logout_redirect_url_option :
    NewService "id" "secret" (some sampleBase) "/dash" [] ""
      [WithLogoutRedirectURL "/landing"] = some landingService ∧
    landingService.logoutRedirectURL = "/landing" ∧
    (Handlers.Logout landingService ([], none) ⟨none⟩ ⟨[], 0⟩).response =
      .redirect "/login" 302 ∧
    (Handlers.Logout landingService ([], none) ⟨none⟩ ⟨[], 0⟩).response ≠
      .redirect "/landing" 302 ∧
    (Handlers.Logout landingService ([], none) ⟨none⟩ ⟨[], 0⟩).persisted.maxAge
      = -1 := by
  refine ⟨?_, rfl, rfl, by decide, rfl⟩
  rfl

/-- C8 counterexample: a session-save failure in `Logout` is not surfaced as
a redirect with a machine-readable code — the raw error text `boom` is
written straight into the HTTP response body with status 500. -/
theorem logout_save_failure_writes_raw_error_text :
    (Handlers.Logout sampleService ([], none) ⟨some "boom"⟩ ⟨[], 0⟩).response =
      .serverError "boom" 500 :=
  rfl

/-- C8 (amended): every recoverable flow error in `Callback` is surfaced as a
redirect carrying a machine-readable code (or, through the re-invoked
`Login`, as a generic 500 without the raw error text), and `Login` likewise
never writes raw error text; the exception is `Logout`, whose session-save
failure writes the raw error message into the response body with status
500. -/
theorem recoverable_flow_errors_redirect_or_generic_500 :
    (∀ svc req load env pre,
      (∃ loc, (Handlers.Callback svc req load env pre).response =
        .redirect loc 302) ∨
      (Handlers.Callback svc req load env pre).response =
        .serverError "Internal Server Error" 500) ∧
    (∀ svc req load env pre,
      (∃ loc, (Handlers.Login svc req load env pre).response =
        .redirect loc 302) ∨
      (Handlers.Login svc req load env pre).response =
        .serverError "Internal Server Error" 500) ∧
    (∀ svc load msg pre,
      (Handlers.Logout svc load ⟨some msg⟩ pre).response =
        .serverError msg 500) := by
  refine ⟨?_, ?_, ?_⟩
  · intro svc req load env pre
    unfold Handlers.Callback callbackFinish Handlers.Login
    dsimp only
    repeat' split
    all_goals first
      | (left; exact ⟨_, rfl⟩)
      | (right; rfl)
  · intro svc req load env pre
    unfold Handlers.Login
    dsimp only
    repeat' split
    all_goals first
      | (left; exact ⟨_, rfl⟩)
      | (right; rfl)
  · intro svc load msg pre
    rfl

/-- A sample exchanged token carrying a refresh token. -/
def sampleToken : Token :=
  { accessToken := "abc", tokenType := "bearer", refreshToken := "rtok"
    expiry := "" }

/-- A sample Google profile, as in the repository's own callback test. -/
def sampleUser : GoogleUser :=
  { email := "e@example.com", name := "tester", picture := "pic" }

/-- A sample all-successful callback environment. -/
def sampleCallbackEnv : CallbackEnv :=
  { exchange := some sampleToken
    userInfo := some sampleUser
    saveErr := none
    login := { genState := some "st2", saveErr := none } }

/-- C10: `Login` and `Callback` read only the session values from
`store.Get` and discard its error component; a request whose cookie is
absent or corrupt therefore behaves exactly like one with an empty session:
`Login` still proceeds (redirecting to the provider when state generation and
save succeed) and `Callback` redirects with `error=missing_state`. -/
theorem handlers_discard_session_load_error (svc : Service) (req : Request)
    (e : String) (vals : SessionValues) (err : Option String)
    (env : LoginEnv) (cenv : CallbackEnv) (pre : SessionState) (st : String)
    (hgen : env.genState = some st) (hsave : env.saveErr = none) :
    Handlers.Login svc req (vals, err) env pre =
      Handlers.Login svc req (vals, none) env pre ∧
    Handlers.Callback svc req (vals, err) cenv pre =
      Handlers.Callback svc req (vals, none) cenv pre ∧
    (Handlers.Login svc req (storeGet (.corrupt e)) env pre).response =
      .redirect (authCodeURL (svc.authorizationConfigForRequest (some req)) st)
        302 ∧
    (Handlers.Callback svc req (storeGet (.corrupt e)) cenv pre).response =
      .redirect (LoginPath ++ "?error=missing_state") 302 ∧
    (Handlers.Callback svc req (storeGet .absent) cenv pre).response =
      .redirect (LoginPath ++ "?error=missing_state") 302 := by
  refine ⟨rfl, rfl, ?_, rfl, rfl⟩
  simp [Handlers.Login, storeGet, hgen, hsave]

/-- C10 witness: the corrupt-cookie callback at concrete inputs redirects
with `error=missing_state`. -/
theorem handlers_discard_load_error_witness :
    (Handlers.Callback sampleService sampleRequest (storeGet (.corrupt "bad"))
      sampleCallbackEnv ⟨[], 0⟩).response =
      .redirect (LoginPath ++ "?error=missing_state") 302 :=
  (handlers_discard_session_load_error sampleService sampleRequest "bad" []
    none ⟨some "st", none⟩ sampleCallbackEnv ⟨[], 0⟩ "st" rfl rfl).2.2.2.1

/-- C6: when the exchanged token lacks a refresh token, `Callback` re-invokes
`Login` on the same request and session load (its whole outcome is `Login`'s
outcome), and no identity or token session key changes in the persisted
session. -/
theorem callback_missing_refresh_token_reinvokes_login (svc : Service)
    (req : Request) (load : SessionValues × Option String) (env : CallbackEnv)
    (pre : SessionState) (st : String) (tok : Token)
    (hload : load.1 = pre.values)
    (hstate : getValue load.1 "oauth_state" = some st)
    (hmatch : st = req.queryState)
    (hcode : req.queryCode ≠ "")
    (hex : env.exchange = some tok)
    (hrt : tok.refreshToken = "") :
    Handlers.Callback svc req load env pre =
      Handlers.Login svc req load env.login pre ∧
    ∀ k ∈ identityTokenKeys,
      getValue (Handlers.Callback svc req load env pre).persisted.values k =
        getValue pre.values k := by
  have hEq : Handlers.Callback svc req load env pre =
      Handlers.Login svc req load env.login pre := by
    unfold Handlers.Callback
    dsimp only
    rw [hstate]
    subst hmatch
    simp [hcode, hex, hrt]
  refine ⟨hEq, ?_⟩
  intro k hk
  have hkne : "oauth_state" ≠ k := by
    simp only [identityTokenKeys, List.mem_cons, List.not_mem_nil,
      or_false] at hk
    rcases hk with rfl | rfl | rfl | rfl <;> decide
  rw [hEq]
  cases hg : env.login.genState with
  | none => simp [Handlers.Login, hg]
  | some s' =>
    cases hs : env.login.saveErr with
    | some m => simp [Handlers.Login, hg, hs]
    | none =>
      simp [Handlers.Login, hg, hs, getValue_setValue_ne _ _ _ _ hkne, hload]

/-- A token whose refresh-token field is empty. -/
def emptyRefreshToken : Token :=
  { accessToken := "a", tokenType := "bearer", refreshToken := "", expiry := "" }

/-- A callback environment whose exchange yields `emptyRefreshToken`. -/
def restartEnv : CallbackEnv :=
  { exchange := some emptyRefreshToken
    userInfo := none
    saveErr := none
    login := { genState := some "ns", saveErr := none } }

/-- C6 witness: a concrete callback whose token has no refresh token equals
the re-invoked `Login` outcome. -/
theorem callback_reinvokes_login_witness :
    Handlers.Callback sampleService sampleRequest
      ([("oauth_state", "s123")], none) restartEnv
      ⟨[("oauth_state", "s123")], 0⟩ =
    Handlers.Login sampleService sampleRequest
      ([("oauth_state", "s123")], none) restartEnv.login
      ⟨[("oauth_state", "s123")], 0⟩ :=
  (callback_missing_refresh_token_reinvokes_login sampleService sampleRequest
    ([("oauth_state", "s123")], none) restartEnv ⟨[("oauth_state", "s123")], 0⟩
    "s123" emptyRefreshToken rfl rfl rfl (by decide) rfl rfl).1

/-- After state validation, code presence, a successful exchange, and the
refresh-token check, `Callback` reduces to the profile-or-sentinel branch
followed by `callbackFinish`. -/
theorem callback_reduces_after_exchange (svc : Service) (req : Request)
    (load : SessionValues × Option String) (env : CallbackEnv)
    (pre : SessionState) (st : String) (tok : Token)
    (hstate : getValue load.1 "oauth_state" = some st)
    (hmatch : st = req.queryState)
    (hcode : req.queryCode ≠ "")
    (hex : env.exchange = some tok)
    (hrt : tok.refreshToken ≠ "") :
    Handlers.Callback svc req load env pre =
      (if (svc.authorizationConfigForRequest (some req)).scopes.any
          (fun scope => scope = ScopeProfile || scope = ScopeEmail) then
        match env.userInfo with
        | none =>
          { response := .redirect (LoginPath ++ "?error=user_info_failed") 302
            persisted := pre }
        | some googleUser =>
          callbackFinish svc tok
            (setValue (setValue (setValue load.1 SessionKeyUserEmail
              googleUser.email) SessionKeyUserName googleUser.name)
              SessionKeyUserPicture googleUser.picture) env.saveErr pre
      else
        callbackFinish svc tok
          (setValue load.1 SessionKeyUserEmail "authenticated_api_user")
          env.saveErr pre) := by
  unfold Handlers.Callback
  dsimp only
  rw [hstate]
  subst hmatch
  simp [hcode, hex, hrt]

/-- C1: every redirect-with-error outcome of `Callback` leaves the persisted
session's identity keys and OAuth-token key unchanged from before the
invocation; in particular a stored state differing from the `state` query
parameter yields the `invalid_state` error redirect with the persisted
session fully untouched.  The hypothesis on `localRedirectURL` rules out a
post-login destination that textually aliases an error redirect. -/
theorem callback_error_redirects_leave_identity_token_keys (svc : Service)
    (req : Request) (load : SessionValues × Option String) (env : CallbackEnv)
    (pre : SessionState)
    (hload : load.1 = pre.values)
    (hloc : ∀ e ∈ flowErrorCodes,
      svc.localRedirectURL ≠ LoginPath ++ "?error=" ++ e) :
    (∀ e ∈ flowErrorCodes,
      (Handlers.Callback svc req load env pre).response =
        .redirect (LoginPath ++ "?error=" ++ e) 302 →
      ∀ k ∈ identityTokenKeys,
        getValue (Handlers.Callback svc req load env pre).persisted.values k =
          getValue pre.values k) ∧
    (∀ s, getValue load.1 "oauth_state" = some s → s ≠ req.queryState →
      (Handlers.Callback svc req load env pre).response =
        .redirect (LoginPath ++ "?error=invalid_state") 302 ∧
      (Handlers.Callback svc req load env pre).persisted = pre) := by
  have hcases :
      (Handlers.Callback svc req load env pre).persisted = pre ∨
      (∃ s', (Handlers.Callback svc req load env pre).persisted.values =
        setValue load.1 "oauth_state" s') ∨
      (Handlers.Callback svc req load env pre).response =
        .redirect svc.localRedirectURL 302 := by
    unfold Handlers.Callback callbackFinish Handlers.Login
    dsimp only
    repeat' split
    all_goals first
      | (left; rfl)
      | (right; left; exact ⟨_, rfl⟩)
      | (right; right; rfl)
  constructor
  · intro e he hresp k hk
    have hkne : "oauth_state" ≠ k := by
      simp only [identityTokenKeys, List.mem_cons, List.not_mem_nil,
        or_false] at hk
      rcases hk with rfl | rfl | rfl | rfl <;> decide
    rcases hcases with hpre | ⟨s', hvals⟩ | hsucc
    · rw [hpre]
    · rw [hvals, getValue_setValue_ne _ _ _ _ hkne, hload]
    · exact absurd (by simpa using hsucc.symm.trans hresp) (hloc e he)
  · intro s hs hne
    unfold Handlers.Callback
    dsimp only
    rw [hs]
    simp [hne]

/-- C1 witness: a concrete stored state `zzz` against query state `s123`
redirects with `error=invalid_state` and persists nothing. -/
theorem callback_invalid_state_witness :
    (Handlers.Callback sampleService sampleRequest
        ([("oauth_state", "zzz")], none) sampleCallbackEnv
        ⟨[("oauth_state", "zzz")], 0⟩).response =
      .redirect (LoginPath ++ "?error=invalid_state") 302 ∧
    (Handlers.Callback sampleService sampleRequest
        ([("oauth_state", "zzz")], none) sampleCallbackEnv
        ⟨[("oauth_state", "zzz")], 0⟩).persisted =
      ⟨[("oauth_state", "zzz")], 0⟩ :=
  (callback_error_redirects_leave_identity_token_keys sampleService
    sampleRequest ([("oauth_state", "zzz")], none) sampleCallbackEnv
    ⟨[("oauth_state", "zzz")], 0⟩ rfl (by decide)).2 "zzz" rfl (by decide)

/-- C3: at the profile-determination step, a profile-bearing configured scope
(`profile` or `email`) makes `Callback` consume the profile fetch — failure
redirects with `error=user_info_failed` and persists nothing, success stores
email/name/picture; without a profile-bearing scope the fetch outcome is
never consulted (the whole outcome is invariant under it), the sentinel
`authenticated_api_user` is stored as the identity marker, and the name and
picture keys keep their loaded values. -/
theorem callback_profile_scope_branching (svc : Service) (req : Request)
    (load : SessionValues × Option String) (env : CallbackEnv)
    (pre : SessionState) (st : String) (tok : Token)
    (hstate : getValue load.1 "oauth_state" = some st)
    (hmatch : st = req.queryState)
    (hcode : req.queryCode ≠ "")
    (hex : env.exchange = some tok)
    (hrt : tok.refreshToken ≠ "") :
    ((svc.authorizationConfigForRequest (some req)).scopes.any
        (fun scope => scope = ScopeProfile || scope = ScopeEmail) = true →
      (env.userInfo = none →
        (Handlers.Callback svc req load env pre).response =
          .redirect (LoginPath ++ "?error=user_info_failed") 302 ∧
        (Handlers.Callback svc req load env pre).persisted = pre) ∧
      (∀ u, env.userInfo = some u → env.saveErr = none →
        getValue (Handlers.Callback svc req load env pre).persisted.values
          SessionKeyUserEmail = some u.email ∧
        getValue (Handlers.Callback svc req load env pre).persisted.values
          SessionKeyUserName = some u.name ∧
        getValue (Handlers.Callback svc req load env pre).persisted.values
          SessionKeyUserPicture = some u.picture)) ∧
    ((svc.authorizationConfigForRequest (some req)).scopes.any
        (fun scope => scope = ScopeProfile || scope = ScopeEmail) = false →
      (∀ ui1 ui2,
        Handlers.Callback svc req load { env with userInfo := ui1 } pre =
          Handlers.Callback svc req load { env with userInfo := ui2 } pre) ∧
      (env.saveErr = none →
        getValue (Handlers.Callback svc req load env pre).persisted.values
          SessionKeyUserEmail = some "authenticated_api_user" ∧
        getValue (Handlers.Callback svc req load env pre).persisted.values
          SessionKeyUserName = getValue load.1 SessionKeyUserName ∧
        getValue (Handlers.Callback svc req load env pre).persisted.values
          SessionKeyUserPicture = getValue load.1 SessionKeyUserPicture)) := by
  have hred := callback_reduces_after_exchange svc req load env pre st tok
    hstate hmatch hcode hex hrt
  constructor
  · intro hP
    constructor
    · intro hU
      rw [hred]
      simp [hP, hU]
    · intro u hU hsave
      rw [hred]
      simp [hP, hU, callbackFinish, hsave, getValue, setValue,
        SessionKeyUserEmail, SessionKeyUserName, SessionKeyUserPicture,
        SessionKeyOAuthToken]
  · intro hP
    constructor
    · intro ui1 ui2
      rw [callback_reduces_after_exchange svc req load
          { env with userInfo := ui1 } pre st tok hstate hmatch hcode hex hrt,
        callback_reduces_after_exchange svc req load
          { env with userInfo := ui2 } pre st tok hstate hmatch hcode hex hrt]
      simp [hP]
    · intro hsave
      rw [hred]
      simp [hP, callbackFinish, hsave, getValue, setValue,
        SessionKeyUserEmail, SessionKeyUserName, SessionKeyUserPicture,
        SessionKeyOAuthToken]

/-- C3 witness: the sample profile-bearing callback stores the fetched
profile email. -/
theorem callback_profile_branch_witness :
    getValue (Handlers.Callback sampleService sampleRequest
        ([("oauth_state", "s123")], none) sampleCallbackEnv
        ⟨[("oauth_state", "s123")], 0⟩).persisted.values SessionKeyUserEmail =
      some sampleUser.email :=
  (((callback_profile_scope_branching sampleService sampleRequest
      ([("oauth_state", "s123")], none) sampleCallbackEnv
      ⟨[("oauth_state", "s123")], 0⟩ "s123" sampleToken (by decide) rfl
      (by decide) rfl (by decide)).1 (by decide)).2 sampleUser rfl rfl).1

/-- C7: once the refresh-token check passes and the profile-or-sentinel
branch completes (fetch consumed or skipped), the serialized OAuth token is
stored under its reserved key in the session that the successful save
persists, and the flow redirects to the configured post-login URL —
regardless of which branch was taken. -/
theorem callback_stores_serialized_token_before_save (svc : Service)
    (req : Request) (load : SessionValues × Option String) (env : CallbackEnv)
    (pre : SessionState) (st : String) (tok : Token)
    (hstate : getValue load.1 "oauth_state" = some st)
    (hmatch : st = req.queryState)
    (hcode : req.queryCode ≠ "")
    (hex : env.exchange = some tok)
    (hrt : tok.refreshToken ≠ "")
    (hfetch : (svc.authorizationConfigForRequest (some req)).scopes.any
        (fun scope => scope = ScopeProfile || scope = ScopeEmail) = true →
      env.userInfo ≠ none)
    (hsave : env.saveErr = none) :
    getValue (Handlers.Callback svc req load env pre).persisted.values
      SessionKeyOAuthToken = some (tokenJSON tok) ∧
    (Handlers.Callback svc req load env pre).response =
      .redirect svc.localRedirectURL 302 := by
  have hred := callback_reduces_after_exchange svc req load env pre st tok
    hstate hmatch hcode hex hrt
  rw [hred]
  cases hP : (svc.authorizationConfigForRequest (some req)).scopes.any
      (fun scope => scope = ScopeProfile || scope = ScopeEmail) with
  | false =>
    simp [callbackFinish, hsave, getValue, setValue, SessionKeyUserEmail,
      SessionKeyOAuthToken]
  | true =>
    cases hU : env.userInfo with
    | none => exact absurd hU (hfetch hP)
    | some u =>
      simp [callbackFinish, hsave, getValue, setValue, SessionKeyUserEmail,
        SessionKeyUserName, SessionKeyUserPicture, SessionKeyOAuthToken]

/-- C8 witness: the amended statement at a concrete logout save failure. -/
theorem logout_save_failure_shape_witness :
    (Handlers.Logout sampleService ([], none) ⟨some "x"⟩ ⟨[], 0⟩).response =
      .serverError "x" 500 :=
  recoverable_flow_errors_redirect_or_generic_500.2.2 sampleService
    ([], none) "x" ⟨[], 0⟩

/-- C9 witness: the concrete per-request configuration computation leaves the
sample service unchanged. -/
theorem authorization_config_frame_witness :
    (sampleService.authorizationConfigForRequestS (some sampleRequest)).2 =
      sampleService :=
  (authorization_config_clone_frame sampleService (some sampleRequest)).1

/-- C7 witness: the sample successful callback persists the serialized sample
token under the reserved key. -/
theorem callback_token_stored_witness :
    getValue (Handlers.Callback sampleService sampleRequest
        ([("oauth_state", "s123")], none) sampleCallbackEnv
        ⟨[("oauth_state", "s123")], 0⟩).persisted.values SessionKeyOAuthToken =
      some (tokenJSON sampleToken) :=
  (callback_stores_serialized_token_before_save sampleService sampleRequest
    ([("oauth_state", "s123")], none) sampleCallbackEnv
    ⟨[("oauth_state", "s123")], 0⟩ "s123" sampleToken (by decide) rfl
    (by decide) rfl (by decide) (fun _ => by decide) rfl).1

end GAuss
